import Mathlib

/-!
Shallow embedding of the sale-settlement and rolling-stock-ledger core of the
pos-server repository (Django + graphene GraphQL backend), together with
theorems checking the repository's natural-language specification against it.

Conventions of the embedding:
* `Decimal` money amounts and floating-point litre quantities are both
  embedded as `ℚ`; every arithmetic operation the source performs on them
  (`+`, `-`, `*`, `/`, `min`, `max`, `abs`, comparisons, and truncation by
  Python's `int()`) is exact on `ℚ`.
* Django model rows live in plain lists inside a `DB` record, ordered by
  creation time (newest last); `order_by("-created_at").first()` becomes
  `List.getLast?`.
* Fallible Python code (raising `ValueError` etc.) returns `Except Err`.
-/

namespace POS

/-- Transaction types of `sales.choices.TransactionTypeChoices`. -/
inductive TransactionType where
  | credit_added
  | credit_used
  | credit_refund
  | credit_earned
  | debt_incurred
  deriving Repr, DecidableEq

/-- Payment methods of `sales.choices.PaymentMethodChoices`. -/
inductive PaymentMethod where
  | cash
  | transfer
  | credit
  | part_payment
  deriving Repr, DecidableEq

/-- Sale types of `sales.choices.SaleTypeChoices`. -/
inductive SaleTypeChoice where
  | retail
  | wholesale
  deriving Repr, DecidableEq

/-- Return statuses of `sales.choices.ReturnStatusChoices`. -/
inductive ReturnStatus where
  | pending
  | approved
  | rejected
  | completed
  deriving Repr, DecidableEq

/-- Structured stand-ins for the exceptions the source raises (`ValueError`
with a message, `Customer.DoesNotExist`, …).  `insufficientStock` carries the
product name and the available/requested unit counts that the source
interpolates into its message string. -/
inductive Err where
  | customerNotFound
  | productNotFound (product_id : Nat)
  | insufficientStock (product_name : String) (available : Int) (requested : Nat)
  | cannotSellMoreThanRemaining
  | invalidStateApprove
  | invalidStateReject
  deriving Repr, DecidableEq

/-- `customers.models.Customer`, restricted to the fields the settlement and
return logic reads or writes (`balance`, `total_purchases`); identity and
contact fields are irrelevant to the claims and collapsed into `id`. -/
structure Customer where
  id : Nat
  balance : ℚ
  total_purchases : ℚ
  deriving Repr, DecidableEq

/-- `products.models.Product`, restricted to the fields the settlement logic
reads.  `unit` is a Django `PositiveIntegerField` (a non-negative integer). -/
structure Product where
  id : Nat
  name : String
  price : ℚ
  unit : Nat
  deriving Repr, DecidableEq

/-- `products.models.StockData`: one rolling-stock delivery batch. -/
structure StockData where
  delivered_quantity : ℚ
  price : ℚ
  supplier : String
  cumulative_stock : ℚ
  remaining_stock : ℚ
  sold_stock : ℚ
  deriving Repr, DecidableEq

/-- `sales.models.Sale`, restricted to the financial fields.  `id` stands in
for the generated `transaction_id`. -/
structure Sale where
  id : Nat
  customerId : Option Nat
  sale_type : SaleTypeChoice
  subtotal : ℚ
  discount : ℚ
  total : ℚ
  balance : ℚ
  credit_applied : ℚ
  amount_due : ℚ
  deriving Repr, DecidableEq

/-- `sales.models.SaleItem`. -/
structure SaleItem where
  saleId : Nat
  productId : Nat
  quantity : Nat
  unit_price : ℚ
  total_price : ℚ
  deriving Repr, DecidableEq

/-- `sales.models.Payment`. -/
structure Payment where
  saleId : Nat
  method : PaymentMethod
  amount : ℚ
  balance : ℚ
  deriving Repr, DecidableEq

/-- `sales.models.CustomerCredit`: one append-only credit-ledger entry.  The
free-text `description` is omitted; it carries no data the claims mention. -/
structure CustomerCredit where
  customerId : Nat
  transaction_type : TransactionType
  amount : ℚ
  balance_after : ℚ
  saleId : Option Nat
  deriving Repr, DecidableEq

/-- The persistent state: one list per Django table, ordered by creation time
(newest last). -/
structure DB where
  customers : List Customer
  products : List Product
  stock : List StockData
  sales : List Sale
  saleItems : List SaleItem
  payments : List Payment
  credits : List CustomerCredit
  deriving Repr, DecidableEq

/-- Replace the sale row with the same `id` (Django `sale.save()` on an
already-persisted row). -/
def DB.saveSale (db : DB) (s : Sale) : DB :=
  { db with sales := db.sales.map (fun t => if t.id = s.id then s else t) }

/-- `customer.balance = …; customer.save()` — only the balance differs from
the stored row at each such call site. -/
def DB.setCustomerBalance (db : DB) (cid : Nat) (bal : ℚ) : DB :=
  { db with customers :=
      db.customers.map (fun c => if c.id = cid then { c with balance := bal } else c) }

/-- `customer.total_purchases += amount; customer.save(update_fields=[…])`. -/
def DB.addPurchaseToCustomer (db : DB) (cid : Nat) (amount : ℚ) : DB :=
  { db with customers :=
      db.customers.map (fun c =>
        if c.id = cid then { c with total_purchases := c.total_purchases + amount } else c) }

/-- `latest_stock_record.save()` after mutating the row fetched by
`order_by("-created_at").first()`: replaces the last (newest) batch. -/
def DB.saveLatestStock (db : DB) (s : StockData) : DB :=
  { db with stock := db.stock.dropLast ++ [s] }

/-- Python's `int()` applied to a (positive or negative) quotient truncates
toward zero; `Int.tdiv` is the truncating integer division. -/
def truncInt (q : ℚ) : Int :=
  q.num.tdiv (q.den : Int)

/-- Modelled from the spec: `StockData.get_latest_remaining_stock` is called
by `CreateSale.mutate`, `ProductType.resolve_stock` and the test-suite, but
its definition is not among the provided source files.  Per the spec,
`currentAvailable()` "returns `remaining_stock` of the most-recently-created
batch, or 0 if none exists", which the repository's tests
(`test_get_latest_remaining_stock_empty` / `_with_data`) confirm. -/
def StockData.get_latest_remaining_stock (stock : List StockData) : ℚ :=
  match stock.getLast? with
  | some s => s.remaining_stock
  | none => 0

/-- `StockData.record_sale` (products/models.py): raises when selling more
than `remaining_stock`, otherwise increments `sold_stock` and recomputes
`remaining_stock`.  The source has no check for a negative
`quantity_sold`. -/
def StockData.record_sale (self : StockData) (quantity_sold : ℚ) : Except Err StockData :=
  if self.remaining_stock < quantity_sold then
    .error .cannotSellMoreThanRemaining
  else
    let sold := self.sold_stock + quantity_sold
    .ok { self with sold_stock := sold, remaining_stock := self.cumulative_stock - sold }

/-- `StockData.create_new_delivery` (products/models.py): `previous_remaining`
is a caller-supplied parameter (Python default `0.0`); the method does not
consult any existing batch. -/
def StockData.create_new_delivery (delivered_quantity : ℚ) (price : ℚ) (supplier : String)
    (previous_remaining : ℚ) : StockData :=
  let cumulative_stock := previous_remaining + delivered_quantity
  { delivered_quantity := delivered_quantity
    price := price
    supplier := supplier
    cumulative_stock := cumulative_stock
    remaining_stock := cumulative_stock
    sold_stock := 0 }

/-- `full_clean()` on a `StockData` row: the `MinValueValidator(0.0)` field
validators plus `StockData.clean`, which rejects `sold_stock >
cumulative_stock`. -/
def StockData.full_clean_ok (s : StockData) : Bool :=
  0 ≤ s.delivered_quantity && 0 ≤ s.price && 0 ≤ s.cumulative_stock &&
    0 ≤ s.remaining_stock && 0 ≤ s.sold_stock && s.sold_stock ≤ s.cumulative_stock

/-- Result shape shared by the GraphQL stock mutations. -/
structure StockMutationResult where
  success : Bool
  stock_data : Option StockData
  deriving Repr, DecidableEq

/-- `CreateStockDelivery.mutate` (products/schema/mutations/
stock_data_mutations.py): builds the batch from the *argument*
`previous_remaining` (GraphQL default value `0.0`), validates it with
`full_clean`, and persists it as the new latest batch. -/
def CreateStockDelivery.mutate (delivered_quantity : ℚ) (price : ℚ) (supplier : String)
    (previous_remaining : ℚ) (db : DB) : StockMutationResult × DB :=
  let stock_data :=
    StockData.create_new_delivery delivered_quantity price supplier previous_remaining
  if stock_data.full_clean_ok then
    ({ success := true, stock_data := some stock_data },
      { db with stock := db.stock ++ [stock_data] })
  else
    ({ success := false, stock_data := none }, db)

/-- `Customer.get_current_credit_balance` (customers/models.py): the
`balance_after` of the customer's most recent `CustomerCredit` entry, falling
back to the denormalized `Customer.balance` field when no entry exists. -/
def Customer.get_current_credit_balance (self : Customer) (credits : List CustomerCredit) : ℚ :=
  match (credits.filter (fun t => t.customerId = self.id)).getLast? with
  | some t => t.balance_after
  | none => self.balance

/-- `SaleItemInput` (sales/schema/inputs/sale_inputs.py). -/
structure SaleItemInput where
  product_id : Nat
  quantity : Nat
  unit_price : ℚ
  deriving Repr, DecidableEq

/-- `PaymentInput` (sales/schema/inputs/sale_inputs.py): the declared GraphQL
payment input carries only a method and an amount — it has no `balance`
field. -/
structure PaymentInput where
  method : PaymentMethod
  amount : ℚ
  deriving Repr, DecidableEq

/-- `CreateSaleInput` (sales/schema/inputs/sale_inputs.py) as declared: note
the field is `payments`, a *list* of `PaymentInput`.  `CreateSale.mutate`
never reads this field — it dereferences `input.payment` (singular) and
`input.payment.balance`, neither of which exists on the declared input (see
`SaleMutationInput` below). -/
structure CreateSaleInput where
  customer_id : Option Nat
  sale_type : SaleTypeChoice
  items : List SaleItemInput
  payments : List PaymentInput
  discount : ℚ
  credit_applied : ℚ
  deriving Repr, DecidableEq

/-- Sum of the amounts of a list of declared payment inputs — the
`totalPayments = Σ amounts` of the spec. -/
def specTotalPayments (payments : List PaymentInput) : ℚ :=
  (payments.map (fun p => p.amount)).sum

/-- The single payment record `CreateSale.mutate` dereferences: it reads
`input.payment.method`, `input.payment.amount` and `input.payment.balance`
(sale_mutations.py lines 118–126). -/
structure PaymentRead where
  method : PaymentMethod
  amount : ℚ
  balance : ℚ
  deriving Repr, DecidableEq

/-- The input as consumed by `CreateSale.mutate`: exactly the attributes the
method body reads.  The mismatch with the declared `CreateSaleInput`
(`payments` list vs `payment` singular) is the subject of claim C4; in Python
the `input.payment` attribute lookup fails with `AttributeError`.
`customer_id = none` embeds a falsy `input.customer_id`. -/
structure SaleMutationInput where
  customer_id : Option Nat
  sale_type : SaleTypeChoice
  items : List SaleItemInput
  payment : PaymentRead
  discount : ℚ
  deriving Repr, DecidableEq

/-- Result shape of the `CreateSale` mutation. -/
structure CreateSaleResult where
  success : Bool
  sale : Option Sale
  errors : List Err
  deriving Repr, DecidableEq

/-- Customer resolution at the top of `CreateSale.mutate`: a truthy
`customer_id` is looked up (`Customer.DoesNotExist` → failure before any
write); otherwise `customer` stays `None` (walk-in sale). -/
def CreateSale.resolveCustomer (input : SaleMutationInput) (db : DB) :
    Except Err (Option Customer) :=
  match input.customer_id with
  | none => .ok none
  | some cid =>
    match db.customers.find? (fun c => c.id = cid) with
    | none => .error .customerNotFound
    | some c => .ok (some c)

/-- The per-product availability computed inline in the items loop of
`CreateSale.mutate` (sale_mutations.py lines 69–83): zero when the latest
remaining stock or the product unit is non-positive, otherwise
`int(latest_remaining_stock / (product.unit * 25.0))`. -/
def CreateSale.available_stock_for (product : Product) (stock : List StockData) : Int :=
  let latest_remaining_stock := StockData.get_latest_remaining_stock stock
  if latest_remaining_stock ≤ 0 ∨ product.unit = 0 then 0
  else truncInt (latest_remaining_stock / ((product.unit : ℚ) * 25))

/-- The sale shell created by `Sale.objects.create(customer=…, sale_type=…,
discount=…)` before the items loop; financial fields take their model
defaults. -/
def CreateSale.saleShell (input : SaleMutationInput) (db : DB) (customerOpt : Option Customer) :
    Sale :=
  { id := db.sales.length
    customerId := customerOpt.map (fun c => c.id)
    sale_type := input.sale_type
    subtotal := 0
    discount := input.discount
    total := 0
    balance := 0
    credit_applied := 0
    amount_due := 0 }

/-- The items loop of `CreateSale.mutate` (sale_mutations.py lines 64–110).
For each item: product lookup, availability check (raising the
insufficient-stock `ValueError` carrying the available and requested
quantities), `SaleItem` creation, and `record_sale(product.unit * 25.0 *
quantity)` against the latest batch when one exists.  The state reached so
far is returned alongside the error: the surrounding `try`/`except` swallows
the exception inside the `@transaction.atomic` body, so Django commits those
writes. -/
def CreateSale.processItems (sale_id : Nat) :
    List SaleItemInput → ℚ → DB → DB × Except Err ℚ
  | [], subtotal, db => (db, .ok subtotal)
  | item :: rest, subtotal, db =>
    match db.products.find? (fun p => p.id = item.product_id) with
    | none => (db, .error (.productNotFound item.product_id))
    | some product =>
      let available_stock := CreateSale.available_stock_for product db.stock
      if available_stock < (item.quantity : Int) then
        (db, .error (.insufficientStock product.name available_stock item.quantity))
      else
        let total_price := item.unit_price * (item.quantity : ℚ)
        let db1 : DB := { db with saleItems := db.saleItems ++
          [{ saleId := sale_id, productId := product.id, quantity := item.quantity,
             unit_price := item.unit_price, total_price := total_price }] }
        let litres_sold : ℚ := (product.unit : ℚ) * 25 * (item.quantity : ℚ)
        match db1.stock.getLast? with
        | none => CreateSale.processItems sale_id rest (subtotal + total_price) db1
        | some latest =>
          match latest.record_sale litres_sold with
          | .error e => (db1, .error e)
          | .ok updated =>
            CreateSale.processItems sale_id rest (subtotal + total_price)
              (db1.saveLatestStock updated)

/-- The automatic credit-handling block of `CreateSale.mutate`
(sale_mutations.py lines 128–213), entered only when a customer is present:
apply available credit first (`credit_used`), then settle the remainder
against the payments as `debt_incurred` / `credit_earned` / nothing, and
finally bump `total_purchases`.  Returns the computed `credit_applied`
together with the updated state. -/
def CreateSale.creditSection (customer : Customer) (sale : Sale) (total_payments : ℚ)
    (db : DB) : ℚ × DB :=
  let current0 := customer.get_current_credit_balance db.credits
  let credit_applied := if 0 < current0 then min current0 sale.total else 0
  let current1 := current0 - credit_applied
  let db1 : DB :=
    if 0 < current0 then
      (({ db with credits := db.credits ++
          [{ customerId := customer.id, transaction_type := .credit_used,
             amount := credit_applied, balance_after := current1,
             saleId := some sale.id }] } : DB)).setCustomerBalance customer.id current1
    else db
  let amount_owed_after_credit := sale.total - credit_applied
  let final_balance := amount_owed_after_credit - total_payments
  let db2 : DB :=
    if 0 < final_balance then
      (({ db1 with credits := db1.credits ++
          [{ customerId := customer.id, transaction_type := .debt_incurred,
             amount := final_balance, balance_after := current1 - final_balance,
             saleId := some sale.id }] } : DB)).setCustomerBalance customer.id
        (current1 - final_balance)
    else if final_balance < 0 then
      (({ db1 with credits := db1.credits ++
          [{ customerId := customer.id, transaction_type := .credit_earned,
             amount := |final_balance|, balance_after := current1 + |final_balance|,
             saleId := some sale.id }] } : DB)).setCustomerBalance customer.id
        (current1 + |final_balance|)
    else db1
  let db3 := db2.addPurchaseToCustomer customer.id sale.total
  (credit_applied, db3)

/-- Finalization of `CreateSale.mutate` (sale_mutations.py lines 128–229):
run the credit section when a customer is present (`credit_applied = 0`
otherwise), then set `credit_applied`, `amount_due = max(0, total −
credit_applied − total_payments)` and `balance = amount_due` on the sale. -/
def CreateSale.finishSale (customerOpt : Option Customer) (sale : Sale)
    (total_payments : ℚ) (db : DB) : CreateSaleResult × DB :=
  let step :=
    match customerOpt with
    | none => ((0 : ℚ), db)
    | some customer => CreateSale.creditSection customer sale total_payments db
  let credit_applied := step.1
  let db5 := step.2
  let amount_after_credit_and_payments := sale.total - credit_applied - total_payments
  let saleF := { sale with
    credit_applied := credit_applied
    amount_due := max 0 amount_after_credit_and_payments
    balance := max 0 amount_after_credit_and_payments }
  ({ success := true, sale := some saleF, errors := [] }, db5.saveSale saleF)

/-- `CreateSale.mutate` (sales/schema/mutations/sale_mutations.py).  The
method is decorated with `@transaction.atomic` but wraps its whole body in
`try`/`except Exception` and returns a failure result instead of re-raising;
Django rolls a transaction back only when an exception escapes the atomic
block, so every write made before a caught exception is committed.  The
failure branches therefore return the state as mutated up to the failure
point.  The payment step persists the one payment record the code
dereferences (`input.payment`) and uses its amount as `total_payments`. -/
def CreateSale.mutate (input : SaleMutationInput) (db : DB) : CreateSaleResult × DB :=
  match CreateSale.resolveCustomer input db with
  | .error e => ({ success := false, sale := none, errors := [e] }, db)
  | .ok customerOpt =>
    let sale := CreateSale.saleShell input db customerOpt
    let db1 : DB := { db with sales := db.sales ++ [sale] }
    match CreateSale.processItems sale.id input.items 0 db1 with
    | (db2, .error e) => ({ success := false, sale := none, errors := [e] }, db2)
    | (db2, .ok subtotal) =>
      let sale1 := { sale with subtotal := subtotal, total := subtotal - sale.discount }
      let db3 := db2.saveSale sale1
      let db4 : DB := { db3 with payments := db3.payments ++
        [{ saleId := sale1.id, method := input.payment.method,
           amount := input.payment.amount, balance := input.payment.balance }] }
      let total_payments := input.payment.amount
      CreateSale.finishSale customerOpt sale1 total_payments db4

/-- `ProductType.resolve_stock` (products/schema/types/product_type.py):
same availability computation as the items loop of `CreateSale.mutate`, with
the two early returns in the opposite order. -/
def ProductType.resolve_stock (self : Product) (stock : List StockData) : Int :=
  if self.unit = 0 then 0
  else
    let latest_remaining_stock := StockData.get_latest_remaining_stock stock
    if latest_remaining_stock ≤ 0 then 0
    else truncInt (latest_remaining_stock / ((self.unit : ℚ) * 25))

/-- Written from the spec's words (§4.1 `unitsAvailable`): "if `product.unit ≤
0` or `currentAvailable() ≤ 0` return 0; else `floor(currentAvailable() /
(product.unit * litresPerUnit))`" with `litresPerUnit = 25.0`.  Stated with
`Int.floor`, to be compared with the source's truncating `int()`. -/
def specUnitsAvailable (product : Product) (stock : List StockData) : Int :=
  let currentAvailable := StockData.get_latest_remaining_stock stock
  if product.unit = 0 ∨ currentAvailable ≤ 0 then 0
  else ⌊currentAvailable / ((product.unit : ℚ) * 25)⌋

/-- `sales.models.ReturnItem`, with the product foreign key embedded as the
referenced row (`return_item.product`). -/
structure ReturnItem where
  product : Product
  quantity : Nat
  unit_price : ℚ
  refund_amount : ℚ
  deriving Repr, DecidableEq

/-- `sales.models.Return`, with the customer foreign key embedded as the
referenced row (`self.customer`) and the items of `self.items.all()`
inline. -/
structure Return where
  id : Nat
  customer : Customer
  status : ReturnStatus
  total_refund_amount : ℚ
  approval_notes : String
  items : List ReturnItem
  deriving Repr, DecidableEq

/-- The stock-reversal loop of `Return.approve_return` (sales/models.py lines
172–190): for each returned item, if a latest batch exists, set `sold_stock =
max(0, sold_stock − product.unit * 25.0 * quantity)` and recompute
`remaining_stock`; with no batch the item is skipped silently. -/
def Return.restockItems : List ReturnItem → List StockData → List StockData
  | [], stock => stock
  | item :: rest, stock =>
    match stock.getLast? with
    | none => Return.restockItems rest stock
    | some latest =>
      let returned_litres : ℚ := (item.product.unit : ℚ) * 25 * (item.quantity : ℚ)
      let sold := max 0 (latest.sold_stock - returned_litres)
      let updated := { latest with
        sold_stock := sold
        remaining_stock := latest.cumulative_stock - sold }
      Return.restockItems rest (stock.dropLast ++ [updated])

/-- Written from the claim's words (C9): approving a return "reduces the
latest stock batch's sold_stock by product.unit × 25 × quantity per returned
item (floored at 0, remaining_stock recomputed)", item after item. -/
def specRestock (items : List ReturnItem) (stock : List StockData) : List StockData :=
  items.foldl
    (fun acc item =>
      match acc.getLast? with
      | none => acc
      | some latest =>
        let sold := max 0 (latest.sold_stock - (item.product.unit : ℚ) * 25 * (item.quantity : ℚ))
        acc.dropLast ++ [{ latest with
          sold_stock := sold
          remaining_stock := latest.cumulative_stock - sold }])
    stock

/-- `Return.approve_return` (sales/models.py lines 159–210): only a pending
return may be approved (`ValueError` otherwise, before any write); the stock
reversal runs per item; a `credit_refund` entry for `total_refund_amount` is
posted (and the customer balance cache updated) exactly when that amount is
positive; the status ends at `completed`. -/
def Return.approve_return (self : Return) (notes : String) (db : DB) :
    Except Err (Return × DB) :=
  if self.status ≠ ReturnStatus.pending then
    .error .invalidStateApprove
  else
    let self1 := { self with status := ReturnStatus.approved, approval_notes := notes }
    let db1 : DB := { db with stock := Return.restockItems self1.items db.stock }
    let next :=
      if 0 < self1.total_refund_amount then
        let current_balance := self1.customer.get_current_credit_balance db1.credits
        let new_balance := current_balance + self1.total_refund_amount
        (({ db1 with credits := db1.credits ++
            [{ customerId := self1.customer.id, transaction_type := .credit_refund,
               amount := self1.total_refund_amount, balance_after := new_balance,
               saleId := none }] } : DB)).setCustomerBalance self1.customer.id new_balance
      else db1
    let self2 := { self1 with status := ReturnStatus.completed }
    .ok (self2, next)

/-- `Return.reject_return` (sales/models.py lines 212–221): only a pending
return may be rejected; no stock or credit side effect. -/
def Return.reject_return (self : Return) (notes : String) : Except Err Return :=
  if self.status ≠ ReturnStatus.pending then
    .error .invalidStateReject
  else
    .ok { self with status := ReturnStatus.rejected, approval_notes := notes }

/-- Fixture: a 25-litre-per-unit product "A" (unit 1). -/
def exProductA : Product := { id := 0, name := "A", price := 10, unit := 1 }

/-- Fixture: a second 25-litre-per-unit product "B" (unit 1). -/
def exProductB : Product := { id := 1, name := "B", price := 10, unit := 1 }

/-- Fixture: a single fresh batch holding 30 litres. -/
def exBatch30 : StockData :=
  { delivered_quantity := 30, price := 1, supplier := "S",
    cumulative_stock := 30, remaining_stock := 30, sold_stock := 0 }

/-- Fixture for C1: both products on file, 30 litres in stock, nothing sold. -/
def exC1_db : DB :=
  { customers := [], products := [exProductA, exProductB], stock := [exBatch30],
    sales := [], saleItems := [], payments := [], credits := [] }

/-- Fixture for C1: a walk-in sale of 1 unit of "A" (covered by stock) followed
by 5 units of "B" (not covered once "A" has consumed 25 litres). -/
def exC1_input : SaleMutationInput :=
  { customer_id := none, sale_type := .retail,
    items := [{ product_id := 0, quantity := 1, unit_price := 10 },
      { product_id := 1, quantity := 5, unit_price := 10 }],
    payment := { method := .cash, amount := 30, balance := 0 }, discount := 0 }

/-- Fixture: customer 7 holding 1000 of store credit. -/
def exCustomer7 : Customer := { id := 7, balance := 1000, total_purchases := 0 }

/-- Fixture: a product priced at 5000 (unit 1). -/
def exProductC : Product := { id := 2, name := "C", price := 5000, unit := 1 }

/-- Fixture: a fresh 100-litre batch. -/
def exBatch100 : StockData :=
  { delivered_quantity := 100, price := 1, supplier := "S",
    cumulative_stock := 100, remaining_stock := 100, sold_stock := 0 }

/-- Fixture for the C2 witness (spec scenario 3): customer 7 with balance
1000 on file. -/
def exC2_db : DB :=
  { customers := [exCustomer7], products := [exProductC], stock := [exBatch100],
    sales := [], saleItems := [], payments := [], credits := [] }

/-- Fixture for the C2 witness: customer 7 buys one 5000-unit of "C" and pays
4500. -/
def exC2_input : SaleMutationInput :=
  { customer_id := some 7, sale_type := .retail,
    items := [{ product_id := 2, quantity := 1, unit_price := 5000 }],
    payment := { method := .cash, amount := 4500, balance := 0 }, discount := 0 }

/-- Fixture for the C3 witness: a walk-in sale of one unit of "A" at 100,
paying 40. -/
def exC3_input : SaleMutationInput :=
  { customer_id := none, sale_type := .retail,
    items := [{ product_id := 0, quantity := 1, unit_price := 100 }],
    payment := { method := .cash, amount := 40, balance := 0 }, discount := 0 }

/-- Fixture: the sale returned by the C3 witness settlement. -/
def exC3_sale : Sale :=
  { id := 0, customerId := none, sale_type := .retail, subtotal := 100, discount := 0,
    total := 100, balance := 60, credit_applied := 0, amount_due := 60 }

/-- Fixture: the sale returned by the C2 witness settlement. -/
def exC2_sale : Sale :=
  { id := 0, customerId := some 7, sale_type := .retail, subtotal := 5000, discount := 0,
    total := 5000, balance := 0, credit_applied := 1000, amount_due := 0 }

/-- Fixture for the C5 witness: 5 litres remaining, so 0 whole units of "B"
are available. -/
def exBatch5 : StockData :=
  { delivered_quantity := 5, price := 1, supplier := "S",
    cumulative_stock := 5, remaining_stock := 5, sold_stock := 0 }

/-- Fixture for the C5 witness. -/
def exC5_db : DB :=
  { customers := [], products := [exProductB], stock := [exBatch5],
    sales := [], saleItems := [], payments := [], credits := [] }

/-- Fixture for the C5 witness: 5 units of "B" requested, 0 available. -/
def exC5_input : SaleMutationInput :=
  { customer_id := none, sale_type := .retail,
    items := [{ product_id := 1, quantity := 5, unit_price := 10 }],
    payment := { method := .cash, amount := 50, balance := 0 }, discount := 0 }

/-- Fixture for C8: the latest batch has 600 litres remaining (matching the
repository's `test_rolling_stock_chain`). -/
def exC8_db : DB :=
  { customers := [], products := [], stock :=
      [{ delivered_quantity := 1000, price := 1, supplier := "Supplier 1",
         cumulative_stock := 1000, remaining_stock := 600, sold_stock := 400 }],
    sales := [], saleItems := [], payments := [], credits := [] }

/-- Fixture for the C9 witness: a pending return of 2 units of "A" (50
litres) with a 200 refund, against a batch holding 100 litres of which 60
were sold. -/
def exC9_return : Return :=
  { id := 0, customer := exCustomer7, status := .pending,
    total_refund_amount := 200, approval_notes := "",
    items := [{ product := exProductA, quantity := 2, unit_price := 100, refund_amount := 200 }] }

/-- Fixture for the C9 witness. -/
def exC9_db : DB :=
  { customers := [exCustomer7], products := [exProductA], stock :=
      [{ delivered_quantity := 100, price := 1, supplier := "S",
         cumulative_stock := 100, remaining_stock := 40, sold_stock := 60 }],
    sales := [], saleItems := [], payments := [], credits := [] }

/-- Fixture for the C10 witness: no stock batch exists at all. -/
def exC10_db : DB :=
  { customers := [exCustomer7], products := [exProductA], stock := [],
    sales := [], saleItems := [], payments := [], credits := [] }

theorem DB.saveSale_credits (db : DB) (s : Sale) : (db.saveSale s).credits = db.credits := rfl

theorem DB.saveSale_payments (db : DB) (s : Sale) : (db.saveSale s).payments = db.payments := rfl

theorem DB.saveLatestStock_credits (db : DB) (s : StockData) :
    (db.saveLatestStock s).credits = db.credits := rfl

theorem CreateSale.processItems_preserves (sale_id : Nat) (items : List SaleItemInput) :
    ∀ (subtotal : ℚ) (db : DB),
      ((CreateSale.processItems sale_id items subtotal db).1).credits = db.credits ∧
      ((CreateSale.processItems sale_id items subtotal db).1).payments = db.payments ∧
      ((CreateSale.processItems sale_id items subtotal db).1).customers = db.customers ∧
      ((CreateSale.processItems sale_id items subtotal db).1).sales = db.sales := by
  induction items with
  | nil => intro subtotal db; exact ⟨rfl, rfl, rfl, rfl⟩
  | cons item rest ih =>
    intro subtotal db
    unfold CreateSale.processItems
    cases db.products.find? (fun p => p.id = item.product_id) with
    | none => exact ⟨rfl, rfl, rfl, rfl⟩
    | some product =>
      simp only
      split
      · exact ⟨rfl, rfl, rfl, rfl⟩
      · split
        · exact ih _ _
        · split
          · exact ⟨rfl, rfl, rfl, rfl⟩
          · exact ih _ _

/-- Inversion of a successful `CreateSale.mutate` run: customer resolution
succeeded, the items loop succeeded with some subtotal, and the result is the
finalization applied to the intermediate state. -/
theorem CreateSale.mutate_success_inv (input : SaleMutationInput) (db : DB)
    (h : (CreateSale.mutate input db).1.success = true) :
    ∃ (customerOpt : Option Customer) (db2 : DB) (subtotal : ℚ),
      CreateSale.resolveCustomer input db = Except.ok customerOpt ∧
      CreateSale.processItems (CreateSale.saleShell input db customerOpt).id input.items 0
          { db with sales := db.sales ++ [CreateSale.saleShell input db customerOpt] } =
        (db2, Except.ok subtotal) ∧
      CreateSale.mutate input db =
        CreateSale.finishSale customerOpt
          { CreateSale.saleShell input db customerOpt with
              subtotal := subtotal, total := subtotal - input.discount }
          input.payment.amount
          { db2.saveSale { CreateSale.saleShell input db customerOpt with
              subtotal := subtotal, total := subtotal - input.discount } with
            payments := db2.payments ++
              [{ saleId := (CreateSale.saleShell input db customerOpt).id,
                 method := input.payment.method,
                 amount := input.payment.amount,
                 balance := input.payment.balance }] } := by
  unfold CreateSale.mutate at h ⊢
  cases hres : CreateSale.resolveCustomer input db with
  | error e => rw [hres] at h; simp at h
  | ok customerOpt =>
    rw [hres] at h
    dsimp only at h ⊢
    cases hpi : CreateSale.processItems (CreateSale.saleShell input db customerOpt).id
        input.items 0
        { db with sales := db.sales ++ [CreateSale.saleShell input db customerOpt] } with
    | mk db2 exc =>
      cases exc with
      | error e => rw [hpi] at h; simp at h
      | ok subtotal =>
        exact ⟨customerOpt, db2, subtotal, rfl, hpi, rfl⟩

/-- On a non-negative rational, Python's truncating `int()` agrees with the
floor used by the spec's `unitsAvailable`. -/
theorem truncInt_eq_floor (q : ℚ) (hq : 0 ≤ q) : truncInt q = ⌊q⌋ := by
  unfold truncInt
  rw [Rat.floor_def]
  exact Int.tdiv_eq_ediv (Rat.num_nonneg.mpr hq) (Int.natCast_nonneg q.den)

theorem CreateSale.creditSection_preserves (customer : Customer) (sale : Sale)
    (total_payments : ℚ) (db : DB) :
    ((CreateSale.creditSection customer sale total_payments db).2).payments = db.payments ∧
    ((CreateSale.creditSection customer sale total_payments db).2).sales = db.sales ∧
    ((CreateSale.creditSection customer sale total_payments db).2).saleItems = db.saleItems ∧
    ((CreateSale.creditSection customer sale total_payments db).2).stock = db.stock := by
  unfold CreateSale.creditSection DB.setCustomerBalance DB.addPurchaseToCustomer
  dsimp only
  split_ifs <;> exact ⟨rfl, rfl, rfl, rfl⟩

/-- C1: the claim says a settlement in which a later line item fails the
stock check after an earlier one succeeded leaves the persistent state
unchanged.  Evaluating the embedded `CreateSale.mutate` at such an input
(`exC1_input` over `exC1_db`: item "A" passes and consumes 25 litres, item
"B" then fails) shows the call reports failure, yet the post-state differs
from the pre-state: the Sale row and the first SaleItem are persisted and the
latest batch's `sold_stock` is 25 — the caught exception inside
`@transaction.atomic` commits the partial writes. -/
theorem createSale_failure_keeps_earlier_writes :
    (CreateSale.mutate exC1_input exC1_db).1.success = false ∧
    (CreateSale.mutate exC1_input exC1_db).1.errors = [Err.insufficientStock "B" 0 5] ∧
    (CreateSale.mutate exC1_input exC1_db).2 ≠ exC1_db ∧
    ((CreateSale.mutate exC1_input exC1_db).2).sales.length = 1 ∧
    ((CreateSale.mutate exC1_input exC1_db).2).saleItems.length = 1 ∧
    ((CreateSale.mutate exC1_input exC1_db).2).stock =
      [{ exBatch30 with remaining_stock := 5, sold_stock := 25 }] := by
  have t1 : truncInt (6 / 5) = 1 := by
    rw [truncInt_eq_floor _ (by norm_num)]; norm_num [Int.floor_eq_iff]
  have t2 : truncInt (1 / 5) = 0 := by
    rw [truncInt_eq_floor _ (by norm_num)]; norm_num [Int.floor_eq_iff]
  norm_num [t1, t2, CreateSale.mutate, CreateSale.resolveCustomer, CreateSale.saleShell,
    CreateSale.processItems, CreateSale.finishSale, CreateSale.creditSection,
    CreateSale.available_stock_for, StockData.get_latest_remaining_stock,
    StockData.record_sale, DB.saveLatestStock, DB.saveSale,
    exC1_db, exC1_input, exProductA, exProductB, exBatch30]

/-- C6: the claim says `record_sale` fails with an invalid-quantity error
whenever `litresSold < 0`.  Evaluating the embedded `StockData.record_sale`
at −100 on a fresh 1000-litre batch shows the call *succeeds* instead,
driving `sold_stock` to −100 (the source has no negativity check, although
the repository's own test expects a `ValueError` reading "Cannot record
negative sale quantity"). -/
theorem record_sale_accepts_negative_quantity :
    StockData.record_sale
        { delivered_quantity := 1000, price := 1, supplier := "S",
          cumulative_stock := 1000, remaining_stock := 1000, sold_stock := 0 } (-100) =
      Except.ok
        { delivered_quantity := 1000, price := 1, supplier := "S",
          cumulative_stock := 1000, remaining_stock := 1100, sold_stock := -100 } := by
  norm_num [StockData.record_sale]

/-- C7: the claim says `0 ≤ sold_stock ≤ cumulative_stock` holds after every
successful `recordSale`/`reverseSale` starting from a fresh delivery.
Evaluating the embedded code shows a fresh 100-litre delivery followed by the
successful call `record_sale (−50)` reaches `sold_stock = −50 < 0` (and
`remaining_stock = 150 > cumulative_stock`), violating the claimed invariant;
`remaining_stock = cumulative_stock − sold_stock` does still hold. -/
theorem record_sale_negative_breaks_invariant :
    StockData.record_sale (StockData.create_new_delivery 100 1 "SupplierA" 0) (-50) =
      Except.ok
        { delivered_quantity := 100, price := 1, supplier := "SupplierA",
          cumulative_stock := 100, remaining_stock := 150, sold_stock := -50 } ∧
    ((-50 : ℚ) < 0 ∧ (100 : ℚ) < 150) := by
  norm_num [StockData.record_sale, StockData.create_new_delivery]

/-- C8: the claim says `recordDelivery` computes `previousRemaining` from the
latest existing batch.  Evaluating the embedded `CreateStockDelivery.mutate`
with the GraphQL default `previous_remaining = 0` over a state whose latest
batch has 600 litres remaining (the exact situation of the repository's
`test_rolling_stock_chain`) produces a batch with `cumulative_stock = 800`,
not the `600 + 800 = 1400` the claim (and that test) require: the code uses
the caller-supplied `previous_remaining` argument and never consults the
latest batch. -/
theorem create_stock_delivery_ignores_previous_remaining :
    (CreateStockDelivery.mutate 800 (8 / 5) "Supplier 2" 0 exC8_db).1.stock_data =
      some
        { delivered_quantity := 800, price := 8 / 5, supplier := "Supplier 2",
          cumulative_stock := 800, remaining_stock := 800, sold_stock := 0 } ∧
    StockData.get_latest_remaining_stock exC8_db.stock + 800 = 1400 ∧
    ((800 : ℚ) ≠ 1400) := by
  norm_num [CreateStockDelivery.mutate, StockData.create_new_delivery,
    StockData.full_clean_ok, StockData.get_latest_remaining_stock, exC8_db]

/-- C3: on every successful settlement the returned sale satisfies
`amount_due = balance = max(0, total − credit_applied − totalPayments)`
(with `totalPayments` the amount of the single payment the code consumes),
and when no customer is supplied the credit logic is fully skipped:
`credit_applied = 0`, no `CustomerCredit` entry is posted, and `amount_due =
max(0, total − totalPayments)`. -/
theorem createSale_amount_due_balance (input : SaleMutationInput) (db : DB) (s : Sale)
    (h : (CreateSale.mutate input db).1.success = true)
    (hs : (CreateSale.mutate input db).1.sale = some s) :
    s.amount_due = max 0 (s.total - s.credit_applied - input.payment.amount) ∧
    s.balance = s.amount_due ∧
    (input.customer_id = none →
      s.credit_applied = 0 ∧
      ((CreateSale.mutate input db).2).credits = db.credits ∧
      s.amount_due = max 0 (s.total - input.payment.amount)) := by
  obtain ⟨copt, db2, st, hres, hpi, heq⟩ := CreateSale.mutate_success_inv input db h
  have hpres := CreateSale.processItems_preserves
    (CreateSale.saleShell input db copt).id input.items 0
    { db with sales := db.sales ++ [CreateSale.saleShell input db copt] }
  rw [hpi] at hpres
  rw [heq] at hs ⊢
  unfold CreateSale.finishSale at hs ⊢
  dsimp only at hs ⊢
  rw [Option.some_inj] at hs
  subst hs
  refine ⟨rfl, rfl, fun hnone => ?_⟩
  have hcopt : copt = none := by
    unfold CreateSale.resolveCustomer at hres
    rw [hnone] at hres
    dsimp only at hres
    injection hres with h
    exact h.symm
  subst hcopt
  exact ⟨rfl, hpres.1, by simp⟩

/-- C2: on every successful settlement for a customer whose current credit
balance `b` is positive, exactly one `credit_used` entry of amount `min(b,
sale.total)` with `balance_after = b − creditApplied` is appended, followed —
according to the sign of `finalBalance = (sale.total − creditApplied) −
totalPayments` — by exactly one `debt_incurred` entry of `finalBalance`
(balance after: running balance minus `finalBalance`), exactly one
`credit_earned` entry of `|finalBalance|` (balance after: running balance
plus `|finalBalance|`), or no further entry. -/
theorem createSale_credit_ledger_entries (input : SaleMutationInput) (db : DB)
    (cid : Nat) (customer : Customer) (s : Sale)
    (hcid : input.customer_id = some cid)
    (hfind : db.customers.find? (fun c => c.id = cid) = some customer)
    (hb : 0 < customer.get_current_credit_balance db.credits)
    (h : (CreateSale.mutate input db).1.success = true)
    (hs : (CreateSale.mutate input db).1.sale = some s) :
    (let b := customer.get_current_credit_balance db.credits
     let creditApplied := min b s.total
     let finalBalance := s.total - creditApplied - input.payment.amount
     ((CreateSale.mutate input db).2).credits =
       db.credits ++
         { customerId := customer.id, transaction_type := TransactionType.credit_used,
           amount := creditApplied, balance_after := b - creditApplied,
           saleId := some s.id } ::
         (if 0 < finalBalance then
            [{ customerId := customer.id, transaction_type := TransactionType.debt_incurred,
               amount := finalBalance, balance_after := b - creditApplied - finalBalance,
               saleId := some s.id }]
          else if finalBalance < 0 then
            [{ customerId := customer.id, transaction_type := TransactionType.credit_earned,
               amount := |finalBalance|, balance_after := b - creditApplied + |finalBalance|,
               saleId := some s.id }]
          else [])) := by
  obtain ⟨copt, db2, st, hres, hpi, heq⟩ := CreateSale.mutate_success_inv input db h
  have hcopt : copt = some customer := by
    unfold CreateSale.resolveCustomer at hres
    rw [hcid] at hres
    dsimp only at hres
    rw [hfind] at hres
    dsimp only at hres
    injection hres with h2
    exact h2.symm
  subst hcopt
  have hpres := CreateSale.processItems_preserves
    (CreateSale.saleShell input db (some customer)).id input.items 0
    { db with sales := db.sales ++ [CreateSale.saleShell input db (some customer)] }
  rw [hpi] at hpres
  dsimp only at hpres
  rw [heq] at hs ⊢
  unfold CreateSale.finishSale at hs ⊢
  dsimp only at hs ⊢
  rw [Option.some_inj] at hs
  subst hs
  unfold CreateSale.creditSection
  dsimp only
  unfold DB.addPurchaseToCustomer DB.setCustomerBalance
  dsimp only
  simp only [DB.saveSale_credits]
  rw [hpres.1, if_pos hb]
  split_ifs <;> simp

/-- Witness for C2, at the spec's own scenario 3 (balance 1000, total 5000,
payment 4500): exactly one `credit_used` entry of 1000 (balance after 0)
followed by exactly one `credit_earned` entry of 500 (balance after 500). -/
theorem createSale_credit_ledger_entries_witness :
    ((CreateSale.mutate exC2_input exC2_db).2).credits =
      [{ customerId := 7, transaction_type := TransactionType.credit_used,
         amount := 1000, balance_after := 0, saleId := some 0 },
       { customerId := 7, transaction_type := TransactionType.credit_earned,
         amount := 500, balance_after := 500, saleId := some 0 }] := by
  have t4 : truncInt 4 = 4 := by
    rw [truncInt_eq_floor _ (by norm_num)]; norm_num [Int.floor_eq_iff]
  have hrun :
      (CreateSale.mutate exC2_input exC2_db).1.success = true ∧
      (CreateSale.mutate exC2_input exC2_db).1.sale = some exC2_sale := by
    norm_num [t4, exC2_sale, CreateSale.mutate, CreateSale.resolveCustomer,
      CreateSale.saleShell, CreateSale.processItems, CreateSale.finishSale,
      CreateSale.creditSection, CreateSale.available_stock_for,
      StockData.get_latest_remaining_stock, StockData.record_sale, DB.saveLatestStock,
      DB.saveSale, DB.setCustomerBalance, DB.addPurchaseToCustomer,
      Customer.get_current_credit_balance, exC2_db, exC2_input, exCustomer7,
      exProductC, exBatch100, List.find?, min_def]
  have h2 := createSale_credit_ledger_entries exC2_input exC2_db 7 exCustomer7 exC2_sale
    (by norm_num [exC2_input])
    (by norm_num [exC2_db, exCustomer7, List.find?])
    (by norm_num [Customer.get_current_credit_balance, exCustomer7, exC2_db])
    hrun.1 hrun.2
  norm_num [Customer.get_current_credit_balance, exCustomer7, exC2_db, exC2_sale,
    exC2_input, min_def, abs] at h2
  exact h2

/-- Witness for C3, at a concrete walk-in sale (no customer, total 100,
payment 40): `credit_applied = 0`, no credit entry is posted, and
`amount_due = balance = max(0, 100 − 40) = 60`. -/
theorem createSale_amount_due_balance_witness :
    (CreateSale.mutate exC3_input exC1_db).1.sale = some exC3_sale ∧
    exC3_sale.amount_due = max 0 (exC3_sale.total - exC3_sale.credit_applied -
      exC3_input.payment.amount) ∧
    exC3_sale.balance = exC3_sale.amount_due ∧
    exC3_sale.credit_applied = 0 ∧
    ((CreateSale.mutate exC3_input exC1_db).2).credits = exC1_db.credits ∧
    exC3_sale.amount_due = max 0 (exC3_sale.total - exC3_input.payment.amount) := by
  have t1 : truncInt (6 / 5) = 1 := by
    rw [truncInt_eq_floor _ (by norm_num)]; norm_num [Int.floor_eq_iff]
  have hrun :
      (CreateSale.mutate exC3_input exC1_db).1.success = true ∧
      (CreateSale.mutate exC3_input exC1_db).1.sale = some exC3_sale := by
    norm_num [t1, exC3_sale, CreateSale.mutate, CreateSale.resolveCustomer,
      CreateSale.saleShell, CreateSale.processItems, CreateSale.finishSale,
      CreateSale.creditSection, CreateSale.available_stock_for,
      StockData.get_latest_remaining_stock, StockData.record_sale, DB.saveLatestStock,
      DB.saveSale, DB.setCustomerBalance, DB.addPurchaseToCustomer,
      Customer.get_current_credit_balance, exC1_db, exC3_input, exProductA,
      exProductB, exBatch30, List.find?, min_def]
  have h := createSale_amount_due_balance exC3_input exC1_db exC3_sale hrun.1 hrun.2
  exact ⟨hrun.2, h.1, h.2.1, (h.2.2 rfl).1, (h.2.2 rfl).2.1, (h.2.2 rfl).2.2⟩

/-- C4: the claim says one `Payment` row is persisted per element of the
input's `payments` list with `totalPayments` their sum; `CreateSale.mutate`
as written consumes a single payment (the `input.payment` attribute, which
the declared `CreateSaleInput` does not even define — it defines `payments`).
Evaluating the embedded code on a successful settlement shows exactly one
`Payment` row is persisted, with `total_payments` equal to that single
amount. -/
theorem createSale_persists_single_payment :
    (CreateSale.mutate exC2_input exC2_db).1.success = true ∧
    ((CreateSale.mutate exC2_input exC2_db).2).payments =
      [{ saleId := 0, method := PaymentMethod.cash, amount := 4500, balance := 0 }] := by
  have t4 : truncInt 4 = 4 := by
    rw [truncInt_eq_floor _ (by norm_num)]; norm_num [Int.floor_eq_iff]
  norm_num [t4, CreateSale.mutate, CreateSale.resolveCustomer, CreateSale.saleShell,
    CreateSale.processItems, CreateSale.finishSale, CreateSale.creditSection,
    CreateSale.available_stock_for, StockData.get_latest_remaining_stock,
    StockData.record_sale, DB.saveLatestStock, DB.saveSale, DB.setCustomerBalance,
    DB.addPurchaseToCustomer, Customer.get_current_credit_balance,
    exC2_db, exC2_input, exCustomer7, exProductC, exBatch100, List.find?, min_def]

/-- C5: (1) the per-item availability computed by the items loop of
`CreateSale.mutate` and by `ProductType.resolve_stock` both equal the spec's
`unitsAvailable`: 0 when `product.unit ≤ 0` or the current available stock is
≤ 0, `floor(currentAvailable / (product.unit * 25.0))` otherwise; (2) an item
whose requested quantity exceeds that availability makes the items loop fail
at that item, without further writes, with an insufficient-stock error
carrying the available and requested quantities; (3) any items-loop error
makes the whole settlement return failure carrying exactly that error. -/
theorem createSale_insufficient_stock_check :
    (∀ (p : Product) (stock : List StockData),
      CreateSale.available_stock_for p stock = specUnitsAvailable p stock ∧
      ProductType.resolve_stock p stock = specUnitsAvailable p stock) ∧
    (∀ (sale_id : Nat) (item : SaleItemInput) (rest : List SaleItemInput)
        (subtotal : ℚ) (db : DB) (product : Product),
      db.products.find? (fun p => p.id = item.product_id) = some product →
      CreateSale.available_stock_for product db.stock < (item.quantity : Int) →
      CreateSale.processItems sale_id (item :: rest) subtotal db =
        (db, Except.error (Err.insufficientStock product.name
          (CreateSale.available_stock_for product db.stock) item.quantity))) ∧
    (∀ (input : SaleMutationInput) (db : DB) (customerOpt : Option Customer)
        (db2 : DB) (e : Err),
      CreateSale.resolveCustomer input db = Except.ok customerOpt →
      CreateSale.processItems (CreateSale.saleShell input db customerOpt).id input.items 0
          { db with sales := db.sales ++ [CreateSale.saleShell input db customerOpt] } =
        (db2, Except.error e) →
      CreateSale.mutate input db =
        ({ success := false, sale := none, errors := [e] }, db2)) := by
  refine ⟨fun p stock => ?_, fun sale_id item rest subtotal db product hfind hlt => ?_,
    fun input db customerOpt db2 e hres hpi => ?_⟩
  · constructor
    · unfold CreateSale.available_stock_for specUnitsAvailable
      dsimp only
      by_cases hu : p.unit = 0
      · simp [hu]
      · by_cases hl : StockData.get_latest_remaining_stock stock ≤ 0
        · simp [hl, hu]
        · rw [if_neg (by tauto), if_neg (by tauto)]
          exact truncInt_eq_floor _
            (div_nonneg (le_of_lt (lt_of_not_le hl)) (by positivity))
    · unfold ProductType.resolve_stock specUnitsAvailable
      dsimp only
      by_cases hu : p.unit = 0
      · simp [hu]
      · by_cases hl : StockData.get_latest_remaining_stock stock ≤ 0
        · simp [hl, hu]
        · rw [if_neg hu, if_neg hl, if_neg (by tauto)]
          exact truncInt_eq_floor _
            (div_nonneg (le_of_lt (lt_of_not_le hl)) (by positivity))
  · unfold CreateSale.processItems
    rw [hfind]
    dsimp only
    rw [if_pos hlt]
  · unfold CreateSale.mutate
    rw [hres]
    dsimp only
    rw [hpi]

/-- Witness for C5: with 5 litres remaining and product "B" (unit 1), the
availability is 0 on both the code's and the spec's formula; requesting 5
units fails the items loop, and the whole settlement, with
`InsufficientStock("B", available 0, requested 5)`. -/
theorem createSale_insufficient_stock_check_witness :
    CreateSale.available_stock_for exProductB exC5_db.stock =
      specUnitsAvailable exProductB exC5_db.stock ∧
    CreateSale.processItems 0 exC5_input.items 0 exC5_db =
      (exC5_db, Except.error (Err.insufficientStock "B"
        (CreateSale.available_stock_for exProductB exC5_db.stock) 5)) ∧
    CreateSale.mutate exC5_input exC5_db =
      ({ success := false, sale := none, errors := [Err.insufficientStock "B" 0 5] },
       { exC5_db with sales := [CreateSale.saleShell exC5_input exC5_db none] }) := by
  have t2 : truncInt (1 / 5) = 0 := by
    rw [truncInt_eq_floor _ (by norm_num)]; norm_num [Int.floor_eq_iff]
  have havail : CreateSale.available_stock_for exProductB exC5_db.stock = 0 := by
    norm_num [t2, CreateSale.available_stock_for, StockData.get_latest_remaining_stock,
      exC5_db, exProductB, exBatch5]
  refine ⟨(createSale_insufficient_stock_check.1 exProductB exC5_db.stock).1,
    ?_, ?_⟩
  · have hfind : exC5_db.products.find? (fun p => p.id = 1) = some exProductB := by
      norm_num [exC5_db, List.find?, exProductB]
    have := createSale_insufficient_stock_check.2.1 0
      { product_id := 1, quantity := 5, unit_price := 10 } [] 0 exC5_db exProductB
      hfind (by rw [havail]; norm_num)
    simpa [exC5_input, exProductB] using this
  · have hres : CreateSale.resolveCustomer exC5_input exC5_db = Except.ok none := by
      norm_num [CreateSale.resolveCustomer, exC5_input]
    have hpi : CreateSale.processItems (CreateSale.saleShell exC5_input exC5_db none).id
        exC5_input.items 0
        { exC5_db with sales := exC5_db.sales ++ [CreateSale.saleShell exC5_input exC5_db none] } =
        ({ exC5_db with sales := [CreateSale.saleShell exC5_input exC5_db none] },
         Except.error (Err.insufficientStock "B" 0 5)) := by
      norm_num [t2, CreateSale.processItems, CreateSale.available_stock_for,
        StockData.get_latest_remaining_stock, CreateSale.saleShell,
        exC5_db, exC5_input, exProductB, exBatch5, List.find?]
    have := createSale_insufficient_stock_check.2.2 exC5_input exC5_db none
      { exC5_db with sales := [CreateSale.saleShell exC5_input exC5_db none] }
      (Err.insufficientStock "B" 0 5) hres hpi
    simpa using this

theorem Return.restockItems_eq_specRestock (items : List ReturnItem) :
    ∀ stock : List StockData, Return.restockItems items stock = specRestock items stock := by
  induction items with
  | nil => intro stock; rfl
  | cons item rest ih =>
    intro stock
    simp only [Return.restockItems, specRestock, List.foldl_cons]
    cases h : stock.getLast? with
    | none => exact ih stock
    | some latest => exact ih _

theorem Return.restockItems_empty (items : List ReturnItem) :
    Return.restockItems items [] = [] := by
  induction items with
  | nil => rfl
  | cons item rest ih => simpa [Return.restockItems] using ih

/-- C9: approve and reject succeed only on a pending return and fail with an
invalid-state error (leaving the return unchanged) otherwise; a successful
approve applies the per-item stock reversal (`specRestock`: latest batch's
`sold_stock` reduced by `unit × 25 × quantity` per item, floored at 0,
`remaining_stock` recomputed), posts one `credit_refund` entry of
`total_refund_amount` exactly when that amount is positive, and ends with
status `completed`; a successful reject only sets status `rejected`. -/
theorem return_approve_reject_state_machine (ret : Return) (notes : String) (db : DB) :
    (ret.status = ReturnStatus.pending →
      (∃ dbOut : DB,
        Return.approve_return ret notes db =
          Except.ok ({ ret with status := ReturnStatus.completed, approval_notes := notes },
            dbOut) ∧
        dbOut.stock = specRestock ret.items db.stock ∧
        dbOut.credits = db.credits ++
          (if 0 < ret.total_refund_amount then
            [{ customerId := ret.customer.id,
               transaction_type := TransactionType.credit_refund,
               amount := ret.total_refund_amount,
               balance_after := ret.customer.get_current_credit_balance db.credits +
                 ret.total_refund_amount,
               saleId := none }]
           else []) ∧
        dbOut.sales = db.sales ∧ dbOut.saleItems = db.saleItems ∧
        dbOut.payments = db.payments) ∧
      Return.reject_return ret notes =
        Except.ok { ret with status := ReturnStatus.rejected, approval_notes := notes }) ∧
    (ret.status ≠ ReturnStatus.pending →
      Return.approve_return ret notes db = Except.error Err.invalidStateApprove ∧
      Return.reject_return ret notes = Except.error Err.invalidStateReject) := by
  constructor
  · intro hp
    constructor
    · unfold Return.approve_return
      rw [if_neg (by simp [hp])]
      dsimp only
      unfold DB.setCustomerBalance
      refine ⟨_, rfl, ?_, ?_, ?_, ?_, ?_⟩ <;>
        · dsimp only
          rw [Return.restockItems_eq_specRestock]
          split_ifs <;> simp
    · unfold Return.reject_return
      rw [if_neg (by simp [hp])]
  · intro hnp
    constructor
    · unfold Return.approve_return
      rw [if_pos hnp]
    · unfold Return.reject_return
      rw [if_pos hnp]

/-- Witness for C9: approving a non-pending (completed) return fails with the
invalid-state error; rejecting the pending return `exC9_return` succeeds and
only flips its status; approving the pending `exC9_return` succeeds into
status `completed`. -/
theorem return_approve_reject_state_machine_witness :
    Return.approve_return { exC9_return with status := ReturnStatus.completed } "x" exC9_db =
      Except.error Err.invalidStateApprove ∧
    Return.reject_return exC9_return "no" =
      Except.ok { exC9_return with status := ReturnStatus.rejected, approval_notes := "no" } ∧
    (∃ dbOut : DB,
      Return.approve_return exC9_return "ok" exC9_db =
        Except.ok ({ exC9_return with status := ReturnStatus.completed, approval_notes := "ok" },
          dbOut)) := by
  refine ⟨((return_approve_reject_state_machine _ "x" exC9_db).2 (by simp)).1,
    ((return_approve_reject_state_machine exC9_return "no" exC9_db).1 rfl).2, ?_⟩
  obtain ⟨dbOut, h1, -⟩ :=
    ((return_approve_reject_state_machine exC9_return "ok" exC9_db).1 rfl).1
  exact ⟨dbOut, h1⟩

/-- C10: approving a pending return while no `StockData` batch exists does
not fail — the stock-reversal step is skipped for every item, the
`credit_refund` entry (when `total_refund_amount > 0`) is still posted, and
the return transitions to `completed`. -/
theorem approve_return_without_stock (ret : Return) (notes : String) (db : DB)
    (hstock : db.stock = []) (hpending : ret.status = ReturnStatus.pending) :
    ∃ dbOut : DB,
      Return.approve_return ret notes db =
        Except.ok ({ ret with status := ReturnStatus.completed, approval_notes := notes },
          dbOut) ∧
      dbOut.stock = [] ∧
      dbOut.credits = db.credits ++
        (if 0 < ret.total_refund_amount then
          [{ customerId := ret.customer.id,
             transaction_type := TransactionType.credit_refund,
             amount := ret.total_refund_amount,
             balance_after := ret.customer.get_current_credit_balance db.credits +
               ret.total_refund_amount,
             saleId := none }]
         else []) := by
  unfold Return.approve_return
  rw [if_neg (by simp [hpending])]
  dsimp only
  unfold DB.setCustomerBalance
  refine ⟨_, rfl, ?_, ?_⟩ <;>
    · dsimp only
      rw [hstock, Return.restockItems_empty]
      split_ifs <;> simp

/-- Witness for C10: approving the pending `exC9_return` (refund 200) with no
stock on file succeeds, skips the stock step, posts the single refund entry
(customer 7, amount 200, balance 1000 → 1200), and completes the return. -/
theorem approve_return_without_stock_witness :
    ∃ dbOut : DB,
      Return.approve_return exC9_return "ok" exC10_db =
        Except.ok ({ exC9_return with status := ReturnStatus.completed, approval_notes := "ok" },
          dbOut) ∧
      dbOut.stock = [] ∧
      dbOut.credits =
        [{ customerId := 7, transaction_type := TransactionType.credit_refund,
           amount := 200, balance_after := 1200, saleId := none }] := by
  obtain ⟨dbOut, h1, h2, h3⟩ := approve_return_without_stock exC9_return "ok" exC10_db rfl rfl
  refine ⟨dbOut, h1, h2, ?_⟩
  rw [h3]
  norm_num [exC9_return, exC10_db, Customer.get_current_credit_balance, exCustomer7]

end POS
